import Mathlib

/-!
Shallow embedding of the sensor-driven musical event scheduler of
`@strudel/sensors` (files `packages/sensors/webcam.mjs` and
`packages/sensors/muse.mjs`), together with proofs settling the frozen
claims about it.

Conventions:
- JS numbers on code paths that only ever see exact decimal literals and
  integer arithmetic are modelled as `ℚ` (rationals); decimal literals such
  as `0.8` denote the exact rational the source literal denotes.
- The frequency computed by `noteFromScale` is `220 * 2^(semitone/12)` Hz;
  the model computes the integer `semitone` exactly (`noteSemitone`) and
  states real-valued frequency facts about `220 * 2^(s/12)` in `Prop`.
- Timestamps (`Date.now()` milliseconds) are `ℤ`.
- Module-level mutable state is threaded explicitly through state records.
-/

/-! ### Song modes (webcam.mjs line 905: ambient, melodic, energetic, chaotic, minimal) -/

inductive Mode where
  | ambient
  | melodic
  | energetic
  | chaotic
  | minimal
deriving DecidableEq, Repr

/-! ### Harmonic model: getScale and noteFromScale (webcam.mjs lines 957-975) -/

/-- The four scale arrays of `getScale` (webcam.mjs lines 958-961). -/
def majorScale : List ℕ := [0, 2, 4, 5, 7, 9, 11, 12]

def minorScale : List ℕ := [0, 2, 3, 5, 7, 8, 10, 12]

def pentatonic : List ℕ := [0, 2, 4, 7, 9, 12, 14]

def dorian : List ℕ := [0, 2, 3, 5, 7, 9, 10, 12]

/-- `getScale(hue)` (webcam.mjs lines 957-967): bands the scalar position
into quartiles onto the four scale families. -/
def getScale (hue : ℚ) : List ℕ :=
  if hue < 0.25 then majorScale
  else if hue < 0.5 then minorScale
  else if hue < 0.75 then pentatonic
  else dorian

/-- The integer semitone offset computed by `noteFromScale(scale, index, octave)`
(webcam.mjs lines 969-975): `scale[index % scale.length] +
floor(index / scale.length) * 12 + (octave - 3) * 12`.  The frequency the
source returns is `220 * 2^(noteSemitone/12)` Hz (baseFreq 220 = A3). -/
def noteSemitone (scale : List ℕ) (index : ℕ) (octave : ℤ) : ℤ :=
  ((scale.getD (index % scale.length) 0 : ℕ) : ℤ)
    + ((index / scale.length : ℕ) : ℤ) * 12 + (octave - 3) * 12

/-- The interval set (pitch classes mod 12, relative to the root) of each of
the four enumerated scale families. -/
def intervalSet (scale : List ℕ) : List ℤ :=
  if scale = majorScale then [0, 2, 4, 5, 7, 9, 11]
  else if scale = minorScale then [0, 2, 3, 5, 7, 8, 10]
  else if scale = pentatonic then [0, 2, 4, 7, 9]
  else [0, 2, 3, 5, 7, 9, 10]

/-- A frequency value handed to `playNote`: either a `noteFromScale` result
(recorded by its integer semitone offset, frequency `220 * 2^(s/12)` Hz) or a
raw number computed directly (recorded exactly as a rational). -/
inductive EmittedFreq where
  | scaleNote (semitone : ℤ)
  | raw (freq : ℚ)
deriving DecidableEq, Repr

/-- Scale membership of an emitted frequency: its pitch class (semitone
offset mod 12 relative to the root A) lies in the scale's interval set. -/
def EmittedFreq.inScale (scale : List ℕ) : EmittedFreq → Prop
  | .scaleNote s => s % 12 ∈ intervalSet scale
  | .raw q => ∃ s : ℤ, (q : ℝ) = 220 * (2 : ℝ) ^ ((s : ℝ) / 12) ∧ s % 12 ∈ intervalSet scale

/-- An emitted frequency that is not even a chromatic frequency relative to
the base A (no integer semitone offset realises it), hence in no scale. -/
def EmittedFreq.offScale : EmittedFreq → Prop
  | .scaleNote _ => False
  | .raw q => ∀ s : ℤ, (q : ℝ) ≠ 220 * (2 : ℝ) ^ ((s : ℝ) / 12)

/-- The frequencies `playModeTransitionSound(newMode)` hands to `playNote`
(webcam.mjs lines 1130-1178).  The chaotic branch draws 20 random numbers
`r ∈ [0,1)` and plays `100 + r * 800` directly; all other branches go
through `noteFromScale`.  `rands` supplies the random draws. -/
def modeTransitionFreqs (newMode : Mode) (hue : ℚ) (rands : List ℚ) : List EmittedFreq :=
  let scale := getScale hue
  match newMode with
  | .ambient => (List.range 8).map (fun i => .scaleNote (noteSemitone scale (7 - i) 4))
  | .melodic => (List.range 12).map (fun i => .scaleNote (noteSemitone scale i (4 + ((i / 4 : ℕ) : ℤ))))
  | .energetic => (List.range 6).map (fun i => .scaleNote (noteSemitone scale (i * 2) 4))
  | .chaotic => rands.map (fun r => .raw (100 + r * 800))
  | .minimal => [.scaleNote (noteSemitone scale 0 1)]

/-! ### Voice model: playNote (webcam.mjs lines 919-955) -/

/-- One sounding oscillator created by `playNote`: started at `startT`,
stopped at `stopT = startT + duration` (osc.start(now); osc.stop(now+duration)). -/
structure Voice where
  freq : ℚ
  startT : ℚ
  stopT : ℚ
deriving DecidableEq, Repr

/-- The audio-system state relevant to voice accounting: whether
`webcamAudioContext` exists, and the list of oscillators created so far. -/
structure AudioState where
  ctxStarted : Bool
  voices : List Voice
deriving DecidableEq, Repr

/-- `playNote(frequency, duration, ...)` (webcam.mjs lines 919-955): a no-op
when the audio context is absent; otherwise it unconditionally creates one
new oscillator playing from `now` to `now + duration`.  There is no
polyphony check anywhere in this function. -/
def playNote (st : AudioState) (now freq dur : ℚ) : AudioState :=
  if st.ctxStarted then { st with voices := st.voices ++ [⟨freq, now, now + dur⟩] } else st

/-- Whether a voice is sounding at time `t`. -/
def soundingAt (t : ℚ) (v : Voice) : Bool :=
  decide (v.startT ≤ t) && decide (t < v.stopT)

/-- The voices sounding at time `t`. -/
def activeVoices (st : AudioState) (t : ℚ) : List Voice :=
  st.voices.filter (soundingAt t)

/-- `n` successive `playNote` calls with the same arguments (e.g. a burst of
note requests landing in one instant). -/
def playNoteTimes : ℕ → ℚ → ℚ → ℚ → AudioState → AudioState
  | 0, _, _, _, st => st
  | n + 1, now, freq, dur, st => playNoteTimes n now freq dur (playNote st now freq dur)

/-! ### Mode state machine: transitionToMode, activateMode, checkTriggers
(webcam.mjs lines 1047-1128 and 1181-1400) -/

/-- The current sensor readings `checkTriggers` pulls from the webcam
handler (webcam.mjs lines 1184-1189). -/
structure Inputs where
  hue : ℚ
  saturation : ℚ
  brightness : ℚ
  motion : ℚ
  contrast : ℚ
  edges : ℚ
deriving DecidableEq, Repr

/-- The `Math.random()` draws consumed by the mini triggers, made explicit:
the sparkle gate and note (lines 1291-1294), the brightness-wave gate
(line 1368), the combo gate (line 1385) and the six edge-glitch note
draws (line 1330). -/
structure RandDraws where
  sparkleGate : ℚ
  sparkleIdx : ℕ
  waveGate : ℚ
  comboGate : ℚ
  edgeIdx : List ℕ
deriving DecidableEq, Repr

/-- The per-layer enable flags (webcam.mjs lines 884-902). -/
structure Layers where
  ambientEnabled : Bool
  chordsEnabled : Bool
  bassEnabled : Bool
  arpEnabled : Bool
  beatEnabled : Bool
  melodyEnabled : Bool
  percussionEnabled : Bool
  audioReactiveEnabled : Bool
deriving DecidableEq, Repr

/-- All layers disabled, as `stopAllLayers` leaves them (lines 1067-1085). -/
def Layers.allOff : Layers := ⟨false, false, false, false, false, false, false, false⟩

/-- The module-level mutable state of the mode controller in webcam.mjs:
`currentMode`, the not-yet-fired 500 ms activation timeouts scheduled by
`transitionToMode` (in scheduling order), `lastModeChange`, the `last*`
channel values, the rolling counters and history, the layer flags, and the
two gating conditions (`webcamAudioContext` present, `webcam.isInitialized`). -/
structure TriggerState where
  currentMode : Mode
  pendingActivations : List Mode
  lastModeChange : ℤ
  lastHue : ℚ
  lastBrightness : ℚ
  lastMotion : ℚ
  lastSaturation : ℚ
  lastContrast : ℚ
  lastEdges : ℚ
  rapidMotionCount : ℕ
  stillnessCount : ℕ
  colorfulnessHistory : List ℚ
  layers : Layers
  audioCtxStarted : Bool
  webcamInitialized : Bool
deriving DecidableEq, Repr

/-- The externally observable events of one controller step: transition
stingers played (`playModeTransitionSound` calls), layer-activation passes
(`activateMode` calls), mini-trigger notes handed to `playNote` (recorded by
semitone offset) and mini-trigger drum hits. -/
structure TrigOutput where
  stingers : List Mode
  activations : List Mode
  notes : List ℤ
  drumHits : ℕ
deriving DecidableEq, Repr

/-- No observable output. -/
def TrigOutput.empty : TrigOutput := ⟨[], [], [], 0⟩

/-- `triggerCooldown` (webcam.mjs line 908): 3 seconds between mode changes. -/
def triggerCooldown : ℤ := 3000

/-- The layer flags `activateMode(mode)` switches on (webcam.mjs lines
1087-1128); the staggered `setTimeout` starts only set flags to true. -/
def activateLayers (m : Mode) (L : Layers) : Layers :=
  match m with
  | .ambient => { L with ambientEnabled := true, chordsEnabled := true }
  | .melodic => { L with ambientEnabled := true, chordsEnabled := true, arpEnabled := true }
  | .energetic => { L with beatEnabled := true, bassEnabled := true, arpEnabled := true,
                           chordsEnabled := true, ambientEnabled := true }
  | .chaotic => { L with beatEnabled := true, bassEnabled := true, arpEnabled := true,
                         chordsEnabled := true, ambientEnabled := true }
  | .minimal => { L with bassEnabled := true, beatEnabled := true }

/-- `transitionToMode(newMode)` (webcam.mjs lines 1047-1065).  A no-op when
`newMode === currentMode`; otherwise it plays the transition stinger, stops
all layers, schedules a 500 ms timeout that will set `currentMode` and call
`activateMode`, and records `lastModeChange = Date.now()`.  Note that
`currentMode` is NOT updated here - only when the scheduled timeout fires. -/
def transitionToMode (now : ℤ) (newMode : Mode) (st : TriggerState) : TriggerState × TrigOutput :=
  if newMode = st.currentMode then (st, .empty)
  else
    ({ st with layers := .allOff,
               pendingActivations := st.pendingActivations ++ [newMode],
               lastModeChange := now },
     { TrigOutput.empty with stingers := [newMode] })

/-- Firing the oldest scheduled 500 ms transition timeout (the callback at
webcam.mjs lines 1059-1062): sets `currentMode` and runs `activateMode`. -/
def firePendingActivation (st : TriggerState) : TriggerState × TrigOutput :=
  match st.pendingActivations with
  | [] => (st, .empty)
  | m :: rest =>
    ({ st with currentMode := m, pendingActivations := rest,
               layers := activateLayers m st.layers },
     { TrigOutput.empty with activations := [m] })

/-- The counter updates at the top of `checkTriggers` (webcam.mjs lines
1194-1204): rapid-motion and stillness counters, and the colorfulness
history capped at 10 samples. -/
def updateCounters (inp : Inputs) (st : TriggerState) : TriggerState :=
  let rapid := if inp.motion > 0.5 then st.rapidMotionCount + 1 else st.rapidMotionCount - 1
  let still := if inp.motion < 0.05 then st.stillnessCount + 1 else 0
  let hist0 := st.colorfulnessHistory ++ [inp.saturation]
  let hist := if hist0.length > 10 then hist0.drop 1 else hist0
  { st with rapidMotionCount := rapid, stillnessCount := still, colorfulnessHistory := hist }

/-- `avgSaturation` (webcam.mjs line 1204): mean of the colorfulness history. -/
def avgSaturation (st : TriggerState) : ℚ :=
  st.colorfulnessHistory.sum / (st.colorfulnessHistory.length : ℚ)

/-- The `last* = ...` assignments run on the cooldown early return (lines
1206-1213) and at the end of the mini-trigger section (lines 1394-1399). -/
def updateLasts (inp : Inputs) (st : TriggerState) : TriggerState :=
  { st with lastHue := inp.hue, lastBrightness := inp.brightness, lastMotion := inp.motion,
            lastSaturation := inp.saturation, lastContrast := inp.contrast,
            lastEdges := inp.edges }

/-- The ranked mode-trigger cascade (webcam.mjs lines 1216-1259): the first
predicate, in source order, that holds and whose target differs from the
current mode.  A predicate whose target equals the current mode falls
through to the next one. -/
def modeTarget (inp : Inputs) (avgSat : ℚ) (st : TriggerState) : Option Mode :=
  if (inp.motion > 0.8 ∨ st.rapidMotionCount > 30 ∨ (inp.edges > 0.7 ∧ inp.motion > 0.5))
      ∧ st.currentMode ≠ .chaotic then some .chaotic
  else if (|inp.hue - st.lastHue| > 0.3 ∨ avgSat < 0.2 ∨ inp.contrast > 0.8)
      ∧ st.currentMode ≠ .minimal then some .minimal
  else if ((inp.brightness < 0.2 ∧ inp.motion < 0.15) ∨ st.stillnessCount > 100
      ∨ (avgSat < 0.15 ∧ inp.motion < 0.2)) ∧ st.currentMode ≠ .ambient then some .ambient
  else if ((inp.brightness > 0.6 ∧ inp.motion > 0.4 ∧ inp.motion < 0.8)
      ∨ (avgSat > 0.7 ∧ inp.motion > 0.3)
      ∨ (inp.contrast > 0.6 ∧ inp.motion > 0.3 ∧ inp.brightness > 0.5))
      ∧ st.currentMode ≠ .energetic then some .energetic
  else if ((inp.brightness > 0.3 ∧ inp.brightness < 0.7 ∧ inp.motion > 0.1 ∧ inp.motion < 0.4)
      ∨ (avgSat > 0.5 ∧ inp.motion < 0.3)) ∧ st.currentMode ≠ .melodic then some .melodic
  else none

/-- The mini-trigger section (webcam.mjs lines 1261-1392), reached only when
no mode trigger fired: each qualifying edge-detected delta contributes its
ornamental notes (as semitone offsets, in source order) and drum hits.
`st` carries the already-updated counters; the `last*` fields are still the
previous tick's values. -/
def miniTriggerNotes (inp : Inputs) (rand : RandDraws) (st : TriggerState) : List ℤ × ℕ :=
  let scale := getScale inp.hue
  let seg1 := if inp.motion > 0.7 ∧ st.lastMotion < 0.5 then
    (List.range 5).map (fun i => noteSemitone scale (i * 2) 4) else []
  let seg2 := if inp.brightness > 0.8 ∧ st.lastBrightness < 0.6 then
    (List.range 8).map (fun i => noteSemitone scale i 4) else []
  let seg3 := if inp.brightness < 0.2 ∧ st.lastBrightness > 0.5 then
    (List.range 6).map (fun i => noteSemitone scale (5 - i) 4) else []
  let seg4 := if inp.motion > 0.3 ∧ inp.motion < 0.6 ∧ rand.sparkleGate > 0.98 then
    [noteSemitone scale rand.sparkleIdx 4] else []
  let seg5 := if inp.saturation > 0.8 ∧ st.lastSaturation < 0.5 then
    (List.range 4).map (fun i => noteSemitone scale (i * 2) 3) else []
  let seg6 := if inp.saturation < 0.2 ∧ st.lastSaturation > 0.5 then
    [noteSemitone scale 0 3, noteSemitone scale 2 3, noteSemitone scale 4 3] else []
  let drums7 := if inp.contrast > 0.7 ∧ st.lastContrast < 0.4 then 6 else 0
  let seg8 := if inp.edges > 0.6 ∧ st.lastEdges < 0.3 then
    (List.range 6).map (fun i => noteSemitone scale (rand.edgeIdx.getD i 0) 3) else []
  let seg9 := if st.stillnessCount = 150 then
    [noteSemitone scale 0 4, noteSemitone scale 4 4] else []
  let drums10 := if st.rapidMotionCount = 20 then 5 else 0
  let seg11 := if |inp.hue - st.lastHue| > 0.15 ∧ |inp.hue - st.lastHue| < 0.3 then
    [noteSemitone (getScale st.lastHue) 0 3, noteSemitone scale 0 3] else []
  let seg12 := if |inp.brightness - st.lastBrightness| > 0.2 ∧ rand.waveGate > 0.95 then
    (List.range 5).map (fun i =>
      noteSemitone scale (if inp.brightness - st.lastBrightness > 0 then i else 4 - i) 3) else []
  let drums13 := if inp.contrast > 0.5 ∧ |inp.contrast - st.lastContrast| > 0.3 then 2 else 0
  let seg14 := if inp.saturation > 0.6 ∧ inp.motion > 0.5 ∧ rand.comboGate > 0.97 then
    [0, 2, 4, 7, 4, 2].map (fun n => noteSemitone scale n 3) else []
  (seg1 ++ seg2 ++ seg3 ++ seg4 ++ seg5 ++ seg6 ++ seg8 ++ seg9 ++ seg11 ++ seg12 ++ seg14,
   drums7 + drums10 + drums13)

/-- One run of `checkTriggers()` (webcam.mjs lines 1181-1400) at wall-clock
time `now`.  Order of business, as in the source: guard on webcam
initialisation; update the rolling counters and colorfulness history; if the
cooldown has not elapsed (`now - lastModeChange <= triggerCooldown`), update
the `last*` values and return - skipping BOTH the mode triggers and the mini
triggers; otherwise run the ranked mode-trigger cascade and, if one fires,
call `transitionToMode` and return (skipping the mini triggers and the
`last*` update); otherwise run the mini triggers and update the `last*`s. -/
def checkTriggers (now : ℤ) (inp : Inputs) (rand : RandDraws) (st : TriggerState) :
    TriggerState × TrigOutput :=
  if st.webcamInitialized = false then (st, .empty)
  else if now - st.lastModeChange > triggerCooldown then
    match modeTarget inp (avgSaturation (updateCounters inp st)) (updateCounters inp st) with
    | some m => transitionToMode now m (updateCounters inp st)
    | none =>
      (updateLasts inp (updateCounters inp st),
       { TrigOutput.empty with
           notes := (miniTriggerNotes inp rand (updateCounters inp st)).1,
           drumHits := (miniTriggerNotes inp rand (updateCounters inp st)).2 })
  else (updateLasts inp (updateCounters inp st), .empty)

/-- `validModes` (webcam.mjs line 2058). -/
def validModes : List String := ["ambient", "melodic", "energetic", "chaotic", "minimal"]

/-- Decoding of a valid mode-name string (only applied to members of
`validModes`). -/
def modeOfString (s : String) : Mode :=
  if s = "ambient" then .ambient
  else if s = "melodic" then .melodic
  else if s = "energetic" then .energetic
  else if s = "chaotic" then .chaotic
  else .minimal

/-- `setMode(mode)` (webcam.mjs lines 2057-2071).  Rejects unknown mode
names; rejects calls before `startWebcamAudio()`; otherwise delegates to
`transitionToMode`.  Every branch returns the constant pattern
`signal(() => 1)`, modelled by the trailing `1`. -/
def setMode (now : ℤ) (mode : String) (st : TriggerState) : TriggerState × TrigOutput × ℕ :=
  if mode ∉ validModes then (st, .empty, 1)
  else if st.audioCtxStarted = false then (st, .empty, 1)
  else
    let r := transitionToMode now (modeOfString mode) st
    (r.1, r.2, 1)

/-! ### Event traces for the cooldown property -/

/-- One asynchronous event hitting the mode controller: a `checkTriggers`
run (sensor tick), a manual `setMode` call, or a scheduled transition
timeout firing. -/
inductive Ev where
  | tick (now : ℤ) (inp : Inputs) (rand : RandDraws)
  | manual (now : ℤ) (mode : String)
  | fireTimeout
deriving DecidableEq, Repr

/-- The wall-clock time of an event (timeout firings carry none). -/
def evTime : Ev → ℤ
  | .tick now _ _ => now
  | .manual now _ => now
  | .fireTimeout => 0

/-- Whether the event is a manual override. -/
def evManual : Ev → Bool
  | .manual _ _ => true
  | _ => false

/-- Applying one event to the controller state. -/
def stepEv (st : TriggerState) : Ev → TriggerState × TrigOutput
  | .tick now inp rand => checkTriggers now inp rand st
  | .manual now mode => ((setMode now mode st).1, (setMode now mode st).2.1)
  | .fireTimeout => firePendingActivation st

/-- The transitions a trace of events actually performs: the entry time and
manual-override flag of every event whose step played a transition stinger. -/
def runRec (st : TriggerState) : List Ev → List (ℤ × Bool)
  | [] => []
  | ev :: evs =>
    (if (stepEv st ev).2.stingers ≠ [] then [(evTime ev, evManual ev)] else [])
      ++ runRec (stepEv st ev).1 evs

/-- Helper invariant: relative to the `lastModeChange` value `c`, every
recorded non-manual transition is strictly more than the cooldown after the
previous transition (or after `c`, for the first one). -/
def gapOK (c : ℤ) : List (ℤ × Bool) → Prop
  | [] => True
  | (t, b) :: rest => (b = false → t - c > triggerCooldown) ∧ gapOK t rest

/-- The claimed separation: every pair of consecutive recorded transitions
that are both sensor-driven is separated by at least the cooldown. -/
def sensorGapsOK : List (ℤ × Bool) → Prop
  | [] => True
  | [_] => True
  | (t1, b1) :: (t2, b2) :: rest =>
    (b1 = false ∧ b2 = false → t2 - t1 ≥ triggerCooldown) ∧ sensorGapsOK ((t2, b2) :: rest)

/-! ### Webcam signal exports (webcam.mjs lines 557-573) -/

/-- The webcam-handler fields read by the exported signals. -/
structure WebcamState where
  isInitialized : Bool
  colorR : ℚ
  colorG : ℚ
  colorB : ℚ
  colorH : ℚ
  colorS : ℚ
  colorL : ℚ
  brightness : ℚ
  motion : ℚ
  motionX : ℚ
  motionY : ℚ
  motionSpeed : ℚ
  edgeAmount : ℚ
  contrast : ℚ
deriving DecidableEq, Repr

/-- `camColorR` (webcam.mjs line 557). -/
def camColorR (w : WebcamState) : ℚ := if w.isInitialized then w.colorR else 0.5

/-- `camColorG` (line 558). -/
def camColorG (w : WebcamState) : ℚ := if w.isInitialized then w.colorG else 0.5

/-- `camColorB` (line 559). -/
def camColorB (w : WebcamState) : ℚ := if w.isInitialized then w.colorB else 0.5

/-- `camColorH` (line 560). -/
def camColorH (w : WebcamState) : ℚ := if w.isInitialized then w.colorH else 0.5

/-- `camColorS` (line 561). -/
def camColorS (w : WebcamState) : ℚ := if w.isInitialized then w.colorS else 0.5

/-- `camColorL` (line 562). -/
def camColorL (w : WebcamState) : ℚ := if w.isInitialized then w.colorL else 0.5

/-- `camBrightness` (line 563). -/
def camBrightness (w : WebcamState) : ℚ := if w.isInitialized then w.brightness else 0.5

/-- `camMotion` (line 566). -/
def camMotion (w : WebcamState) : ℚ := if w.isInitialized then w.motion else 0

/-- `camMotionX` (line 567). -/
def camMotionX (w : WebcamState) : ℚ := if w.isInitialized then w.motionX else 0

/-- `camMotionY` (line 568). -/
def camMotionY (w : WebcamState) : ℚ := if w.isInitialized then w.motionY else 0

/-- `camMotionSpeed` (line 569). -/
def camMotionSpeed (w : WebcamState) : ℚ := if w.isInitialized then w.motionSpeed else 0

/-- `camEdgeAmount` (line 572). -/
def camEdgeAmount (w : WebcamState) : ℚ := if w.isInitialized then w.edgeAmount else 0

/-- `camContrast` (line 573). -/
def camContrast (w : WebcamState) : ℚ := if w.isInitialized then w.contrast else 0

/-! ### setBPM (webcam.mjs lines 1764-1768) -/

/-- `setBPM(newBPM)`: `bpm = Math.max(40, Math.min(200, newBPM))`. -/
def setBPM (newBPM : ℚ) : ℚ := max 40 (min 200 newBPM)

/-! ### Muse band updates: parseValue and updateBand (muse.mjs lines 298-330) -/

/-- A JavaScript value as it appears in OSC args: a finite number, one of
the non-finite numbers, or a non-number. -/
inductive JSVal where
  | num (x : ℚ)
  | nan
  | inf
  | neginf
  | other
deriving DecidableEq, Repr

/-- The `args` parameter of `parseValue`: either an array (what osc-js
message objects carry) or a bare value (the source's defensive non-array
branch). -/
inductive OSCArgs where
  | arr (l : List JSVal)
  | single (v : JSVal)
deriving DecidableEq, Repr

/-- The filter `typeof v === 'number' && !isNaN(v) && isFinite(v)`
(muse.mjs line 301): keeps exactly the finite numbers. -/
def jsFiniteNum : JSVal → Option ℚ
  | .num x => some x
  | _ => none

/-- `parseValue(args)` (muse.mjs lines 298-306): for an array, average the
finite numeric entries (0 if none); for a bare value, return it if it is a
number (`typeof args === 'number'` - which NaN and the infinities satisfy)
and 0 otherwise. -/
def parseValue : OSCArgs → JSVal
  | .arr l =>
    let valid := l.filterMap jsFiniteNum
    if valid.length = 0 then .num 0
    else .num (valid.sum / (valid.length : ℚ))
  | .single v =>
    match v with
    | .num x => .num x
    | .nan => .nan
    | .inf => .inf
    | .neginf => .neginf
    | .other => .num 0

/-- JS `Math.min(1, v)`: NaN propagates; a non-number coerces to NaN. -/
def jsMin1 : JSVal → JSVal
  | .num x => .num (min 1 x)
  | .nan => .nan
  | .inf => .num 1
  | .neginf => .neginf
  | .other => .nan

/-- JS `Math.max(0, v)`: NaN propagates; a non-number coerces to NaN. -/
def jsMax0 : JSVal → JSVal
  | .num x => .num (max 0 x)
  | .nan => .nan
  | .inf => .inf
  | .neginf => .num 0
  | .other => .nan

/-- The clamp at the top of `updateBand` (muse.mjs line 313):
`value = Math.max(0, Math.min(1, value))`. -/
def jsClamp01 (v : JSVal) : JSVal := jsMax0 (jsMin1 v)

/-- The raw band value `updateBand(band, parseValue(args))` stores in
`this._<band>` for an incoming band update (muse.mjs lines 216-228 with
311-316): the parsed value, clamped. -/
def updateBandValue (args : OSCArgs) : JSVal := jsClamp01 (parseValue args)

/-! ### Concrete fixture states used by witnesses and counterexamples -/

/-- A controller state as after startup: ambient mode, no pending timeout,
`lastModeChange = 0`, all `last*` and counters at their initial values
(webcam.mjs lines 892-916), audio context created, webcam initialised. -/
def stBase : TriggerState where
  currentMode := .ambient
  pendingActivations := []
  lastModeChange := 0
  lastHue := 0.5
  lastBrightness := 0
  lastMotion := 0
  lastSaturation := 0
  lastContrast := 0
  lastEdges := 0
  rapidMotionCount := 0
  stillnessCount := 0
  colorfulnessHistory := []
  layers := .allOff
  audioCtxStarted := true
  webcamInitialized := true

/-- `stBase` with a 0.4 previous brightness and one colorfulness sample, the
setting of the brightness-spike scenario. -/
def stSpike : TriggerState := { stBase with lastBrightness := 0.4, colorfulnessHistory := [0.3] }

/-- Fixed random draws: all gates fail. -/
def randNone : RandDraws where
  sparkleGate := 0
  sparkleIdx := 0
  waveGate := 0
  comboGate := 0
  edgeIdx := []

/-- A bright, moving, moderately saturated frame (fires the energetic mode
predicate). -/
def inpEnergetic : Inputs where
  hue := 0.5
  saturation := 0.3
  brightness := 0.65
  motion := 0.5
  contrast := 0.3
  edges := 0.2

/-- A dark, still frame (fires the ambient mode predicate). -/
def inpDark : Inputs where
  hue := 0.5
  saturation := 0.3
  brightness := 0.1
  motion := 0
  contrast := 0.3
  edges := 0.2

/-- A brightness-spike frame: brightness 0.85, everything else quiet, no
mode predicate matching. -/
def inpSpike : Inputs where
  hue := 0.5
  saturation := 0.3
  brightness := 0.85
  motion := 0
  contrast := 0.3
  edges := 0.2

/-- A trace with two sensor-driven transitions: energetic at t=4000, its
timeout firing, then ambient at t=9000. -/
def evsTwoTransitions : List Ev :=
  [.tick 4000 inpEnergetic randNone, .fireTimeout, .tick 9000 inpDark randNone]

/-- A webcam-handler state before initialisation, with junk internal values. -/
def wUninit : WebcamState where
  isInitialized := false
  colorR := 7
  colorG := 8
  colorB := 9
  colorH := 2
  colorS := 3
  colorL := 4
  brightness := 5
  motion := 6
  motionX := 7
  motionY := 8
  motionSpeed := 9
  edgeAmount := 10
  contrast := 11

/-! ### Helper lemmas -/

theorem noteSemitone_mod_twelve (scale : List ℕ) (index : ℕ) (octave : ℤ) :
    noteSemitone scale index octave % 12
      = ((scale.getD (index % scale.length) 0 : ℕ) : ℤ) % 12 := by
  unfold noteSemitone
  omega

theorem getD_pitch_major (j : ℕ) :
    ((majorScale.getD (j % majorScale.length) 0 : ℕ) : ℤ) % 12 ∈ intervalSet majorScale := by
  have h : j % majorScale.length < majorScale.length := Nat.mod_lt _ (by decide)
  exact (by decide :
    ∀ k : Fin majorScale.length,
      ((majorScale.getD k.1 0 : ℕ) : ℤ) % 12 ∈ intervalSet majorScale) ⟨_, h⟩

theorem getD_pitch_minor (j : ℕ) :
    ((minorScale.getD (j % minorScale.length) 0 : ℕ) : ℤ) % 12 ∈ intervalSet minorScale := by
  have h : j % minorScale.length < minorScale.length := Nat.mod_lt _ (by decide)
  exact (by decide :
    ∀ k : Fin minorScale.length,
      ((minorScale.getD k.1 0 : ℕ) : ℤ) % 12 ∈ intervalSet minorScale) ⟨_, h⟩

theorem getD_pitch_penta (j : ℕ) :
    ((pentatonic.getD (j % pentatonic.length) 0 : ℕ) : ℤ) % 12 ∈ intervalSet pentatonic := by
  have h : j % pentatonic.length < pentatonic.length := Nat.mod_lt _ (by decide)
  exact (by decide :
    ∀ k : Fin pentatonic.length,
      ((pentatonic.getD k.1 0 : ℕ) : ℤ) % 12 ∈ intervalSet pentatonic) ⟨_, h⟩

theorem getD_pitch_dorian (j : ℕ) :
    ((dorian.getD (j % dorian.length) 0 : ℕ) : ℤ) % 12 ∈ intervalSet dorian := by
  have h : j % dorian.length < dorian.length := Nat.mod_lt _ (by decide)
  exact (by decide :
    ∀ k : Fin dorian.length,
      ((dorian.getD k.1 0 : ℕ) : ℤ) % 12 ∈ intervalSet dorian) ⟨_, h⟩

/-- Every semitone offset `noteFromScale` can compute has its pitch class in
the interval set of the scale `getScale` selected. -/
theorem pitch_locked (hue : ℚ) (index : ℕ) (octave : ℤ) :
    noteSemitone (getScale hue) index octave % 12 ∈ intervalSet (getScale hue) := by
  rw [noteSemitone_mod_twelve]
  unfold getScale
  split_ifs
  · exact getD_pitch_major index
  · exact getD_pitch_minor index
  · exact getD_pitch_penta index
  · exact getD_pitch_dorian index

/-- 100 Hz is not `220 * 2^(s/12)` for any integer semitone offset `s`. -/
theorem rpow_semitone_ne_hundred (s : ℤ) :
    (220 : ℝ) * (2 : ℝ) ^ ((s : ℝ) / 12) ≠ 100 := by
  intro h
  have h2 : (2 : ℝ) ^ ((s : ℝ) / 12) = 5 / 11 := by linarith
  have h3 : ((2 : ℝ) ^ ((s : ℝ) / 12)) ^ (12 : ℕ) = ((5 : ℝ) / 11) ^ (12 : ℕ) := by rw [h2]
  rw [← Real.rpow_natCast ((2 : ℝ) ^ ((s : ℝ) / 12)) 12,
      ← Real.rpow_mul (by norm_num : (0 : ℝ) ≤ 2), Nat.cast_ofNat,
      div_mul_cancel₀ (s : ℝ) (by norm_num : (12 : ℝ) ≠ 0), Real.rpow_intCast] at h3
  obtain ⟨n, rfl | rfl⟩ := Int.eq_nat_or_neg s
  · rw [zpow_natCast] at h3
    have h4 : (2 : ℝ) ^ n * 11 ^ 12 = 5 ^ 12 := by
      rw [div_pow] at h3
      field_simp at h3
      linarith
    have h5 : (2 ^ n * 11 ^ 12 : ℕ) = 5 ^ 12 := by exact_mod_cast h4
    have h6 : (11 : ℕ) ^ 12 ≤ 2 ^ n * 11 ^ 12 :=
      Nat.le_mul_of_pos_left _ (pow_pos (by norm_num) n)
    have h7 : (5 : ℕ) ^ 12 < 11 ^ 12 := Nat.pow_lt_pow_left (by norm_num) (by norm_num)
    omega
  · rw [zpow_neg, zpow_natCast] at h3
    have h2n : (0 : ℝ) < 2 ^ n := by positivity
    have h4 : (11 : ℝ) ^ 12 = 5 ^ 12 * 2 ^ n := by
      rw [div_pow, inv_eq_one_div, div_eq_div_iff (ne_of_gt h2n) (by positivity)] at h3
      linarith
    have h5 : (11 : ℕ) ^ 12 = 5 ^ 12 * 2 ^ n := by exact_mod_cast h4
    rcases Nat.eq_zero_or_pos n with hn | hn
    · subst hn
      norm_num at h5
    · have hdvd : 2 ∣ (11 : ℕ) ^ 12 := by
        rw [h5]
        exact Dvd.dvd.mul_left (dvd_pow_self 2 (Nat.pos_iff_ne_zero.mp hn)) _
      have h11 := Nat.Prime.dvd_of_dvd_pow Nat.prime_two hdvd
      norm_num at h11

/-! ### Claim C3 -/

/-- C3: for every scale-degree index, every octave, and every scalar
position in [0,1], the semitone offset computed by the scale mapper
(`getScale` banding the position into quartiles, then `noteFromScale`) has a
pitch class (offset mod 12) that is a member of the selected scale's
interval set; hence so does the returned frequency `220 * 2^(offset/12)`. -/
theorem noteSemitone_pitch_in_intervalSet :
    ∀ (hue : ℚ), 0 ≤ hue → hue ≤ 1 → ∀ (index : ℕ) (octave : ℤ),
      noteSemitone (getScale hue) index octave % 12 ∈ intervalSet (getScale hue) :=
  fun hue _ _ index octave => pitch_locked hue index octave

/-- Witness for C3 at position 0.5 (pentatonic), degree 9, octave 5. -/
theorem noteSemitone_pitch_in_intervalSet_witness :
    noteSemitone (getScale 0.5) 9 5 % 12 ∈ intervalSet (getScale 0.5) :=
  noteSemitone_pitch_in_intervalSet 0.5 (by norm_num) (by norm_num) 9 5

/-! ### Claim C2 -/

/-- C2 (counterexample): the chaotic transition stinger hands the raw
frequency `100 + r * 800` to the synthesizer; at random draws 0 this is
100 Hz, which is not `220 * 2^(s/12)` for any integer `s` and hence lies in
no scale - the claim that every emitted frequency is scale-locked fails. -/
theorem chaotic_stinger_off_scale :
    EmittedFreq.raw 100 ∈ modeTransitionFreqs Mode.chaotic 0.5 (List.replicate 20 0) ∧
    EmittedFreq.offScale (EmittedFreq.raw 100) := by
  constructor
  · with_unfolding_all decide
  · intro s h
    rw [show ((100 : ℚ) : ℝ) = (100 : ℝ) by norm_num] at h
    exact rpow_semitone_ne_hundred s h.symm

/-- C2 (amended): every frequency produced through `noteFromScale` - all
layer notes, mini-trigger notes and the non-chaotic transition stingers - is
scale-locked to the scale `getScale` selects; the chaotic transition stinger
is the exception: it bypasses `noteFromScale` and emits raw frequencies
`100 + r * 800` which can lie outside every scale (100 Hz at draw 0). -/
theorem stinger_scale_lock_amended :
    (∀ (hue : ℚ) (index : ℕ) (octave : ℤ),
        (EmittedFreq.scaleNote (noteSemitone (getScale hue) index octave)).inScale
          (getScale hue)) ∧
    (∀ (newMode : Mode) (hue : ℚ) (rands : List ℚ) (e : EmittedFreq),
        newMode ≠ Mode.chaotic → e ∈ modeTransitionFreqs newMode hue rands →
        e.inScale (getScale hue)) ∧
    (EmittedFreq.raw 100 ∈ modeTransitionFreqs Mode.chaotic 0.5 (List.replicate 20 0) ∧
      EmittedFreq.offScale (EmittedFreq.raw 100)) := by
  refine ⟨fun hue index octave => pitch_locked hue index octave,
          fun newMode hue rands e hm he => ?_, ?_, ?_⟩
  · cases newMode with
    | chaotic => exact absurd rfl hm
    | ambient =>
      simp only [modeTransitionFreqs, List.mem_map, List.mem_range] at he
      obtain ⟨i, _, rfl⟩ := he
      exact pitch_locked hue (7 - i) 4
    | melodic =>
      simp only [modeTransitionFreqs, List.mem_map, List.mem_range] at he
      obtain ⟨i, _, rfl⟩ := he
      exact pitch_locked hue i _
    | energetic =>
      simp only [modeTransitionFreqs, List.mem_map, List.mem_range] at he
      obtain ⟨i, _, rfl⟩ := he
      exact pitch_locked hue (i * 2) 4
    | minimal =>
      simp only [modeTransitionFreqs, List.mem_singleton] at he
      subst he
      exact pitch_locked hue 0 1
  · with_unfolding_all decide
  · intro s h
    rw [show ((100 : ℚ) : ℝ) = (100 : ℝ) by norm_num] at h
    exact rpow_semitone_ne_hundred s h.symm

/-- Witness for the amended C2: the minimal-mode stinger note is in scale. -/
theorem stinger_scale_lock_witness :
    (EmittedFreq.scaleNote (noteSemitone (getScale 0.5) 0 1)).inScale (getScale 0.5) :=
  stinger_scale_lock_amended.2.1 Mode.minimal 0.5 []
    (EmittedFreq.scaleNote (noteSemitone (getScale 0.5) 0 1)) (by decide)
    (by with_unfolding_all decide)

/-! ### Claim C1 -/

/-- C1 (counterexample): `playNote` enforces no polyphony bound - nine
simultaneous note requests at time 0 leave nine voices sounding at once,
exceeding 8, the largest value the claimed `maxPolyphony` range (4-8)
allows; nothing is evicted or dropped. -/
theorem playNote_exceeds_polyphony_bound :
    8 < (activeVoices (playNoteTimes 9 0 440 0.2 ⟨true, []⟩) 0).length := by
  with_unfolding_all decide

/-- C1 (amended): webcam.mjs has no voice manager.  A `playNote` call is
dropped exactly when the audio context is absent; with the context present,
every call unconditionally creates a new voice, so `n` requests at one
instant yield `n` more simultaneously sounding voices - there is no
`maxPolyphony` bound, no priority comparison, and no eviction. -/
theorem playNote_unbounded_growth :
    (∀ (st : AudioState) (now freq dur : ℚ),
        st.ctxStarted = false → playNote st now freq dur = st) ∧
    (∀ (n : ℕ) (now freq dur : ℚ) (st : AudioState), st.ctxStarted = true → 0 < dur →
        (activeVoices (playNoteTimes n now freq dur st) now).length
          = (activeVoices st now).length + n) := by
  constructor
  · intro st now freq dur h
    simp [playNote, h]
  · intro n now freq dur st hctx hdur
    induction n generalizing st with
    | zero => simp [playNoteTimes]
    | succ n ih =>
      have hplay : playNote st now freq dur
          = { st with voices := st.voices ++ [⟨freq, now, now + dur⟩] } := by
        simp [playNote, hctx]
      have hctx2 : (playNote st now freq dur).ctxStarted = true := by
        rw [hplay]
        exact hctx
      rw [playNoteTimes, ih _ hctx2, hplay]
      have hsound : soundingAt now ⟨freq, now, now + dur⟩ = true := by
        simp [soundingAt, hdur]
      simp [activeVoices, List.filter_append, hsound]
      omega

/-- Witness for the amended C1: nine requests on an empty pool leave nine
sounding voices. -/
theorem playNote_unbounded_growth_witness :
    (activeVoices (playNoteTimes 9 0 440 0.2 ⟨true, []⟩) 0).length
      = (activeVoices ⟨true, []⟩ 0).length + 9 :=
  playNote_unbounded_growth.2 9 0 440 0.2 ⟨true, []⟩ rfl (by norm_num)

/-! ### Claim C8 -/

/-- C8: `setBPM` stores a value in [40,200]; inputs below 40 store 40,
inputs above 200 store 200, and in-range inputs are stored unchanged. -/
theorem setBPM_clamped :
    ∀ x : ℚ, 40 ≤ setBPM x ∧ setBPM x ≤ 200 ∧ (x < 40 → setBPM x = 40) ∧
      (200 < x → setBPM x = 200) ∧ (40 ≤ x → x ≤ 200 → setBPM x = x) := by
  intro x
  unfold setBPM
  refine ⟨le_max_left _ _, max_le (by norm_num) (min_le_left _ _), ?_, ?_, ?_⟩
  · intro h
    rw [min_eq_right (by linarith : x ≤ 200), max_eq_left (le_of_lt h)]
  · intro h
    rw [min_eq_left (le_of_lt h)]
    exact max_eq_right (by norm_num)
  · intro h1 h2
    rw [min_eq_right h2]
    exact max_eq_right h1

/-- Witness for C8 at 30, 250 and 120. -/
theorem setBPM_clamped_witness :
    setBPM 30 = 40 ∧ setBPM 250 = 200 ∧ setBPM 120 = 120 :=
  ⟨(setBPM_clamped 30).2.2.1 (by norm_num), (setBPM_clamped 250).2.2.2.1 (by norm_num),
   (setBPM_clamped 120).2.2.2.2 (by norm_num) (by norm_num)⟩

/-! ### Claim C9 -/

/-- C9: before the webcam is initialized, the color and brightness signals
return the fixed default 0.5 and the motion, edge and contrast signals
return 0. -/
theorem cam_signals_default :
    ∀ w : WebcamState, w.isInitialized = false →
      camColorR w = 0.5 ∧ camColorG w = 0.5 ∧ camColorB w = 0.5 ∧ camColorH w = 0.5 ∧
      camColorS w = 0.5 ∧ camColorL w = 0.5 ∧ camBrightness w = 0.5 ∧
      camMotion w = 0 ∧ camMotionX w = 0 ∧ camMotionY w = 0 ∧ camMotionSpeed w = 0 ∧
      camEdgeAmount w = 0 ∧ camContrast w = 0 := by
  intro w h
  simp [camColorR, camColorG, camColorB, camColorH, camColorS, camColorL, camBrightness,
        camMotion, camMotionX, camMotionY, camMotionSpeed, camEdgeAmount, camContrast, h]

/-- Witness for C9: an uninitialised handler with junk internals still
reports the defaults. -/
theorem cam_signals_default_witness :
    camColorR wUninit = 0.5 ∧ camColorG wUninit = 0.5 ∧ camColorB wUninit = 0.5 ∧
    camColorH wUninit = 0.5 ∧ camColorS wUninit = 0.5 ∧ camColorL wUninit = 0.5 ∧
    camBrightness wUninit = 0.5 ∧ camMotion wUninit = 0 ∧ camMotionX wUninit = 0 ∧
    camMotionY wUninit = 0 ∧ camMotionSpeed wUninit = 0 ∧ camEdgeAmount wUninit = 0 ∧
    camContrast wUninit = 0 :=
  cam_signals_default wUninit rfl

/-! ### Claim C10 -/

/-- C10: `setMode` with an unknown mode name, or called before the audio
system is started, changes nothing - the whole controller state (hence
`currentMode` and every layer flag) is returned untouched - and, like every
other branch, terminates normally returning the constant signal 1. -/
theorem setMode_error_atomic :
    (∀ (now : ℤ) (mode : String) (st : TriggerState),
        mode ∉ validModes ∨ st.audioCtxStarted = false →
        (setMode now mode st).1 = st ∧ (setMode now mode st).2.1 = TrigOutput.empty ∧
        (setMode now mode st).2.2 = 1) ∧
    (∀ (now : ℤ) (mode : String) (st : TriggerState), (setMode now mode st).2.2 = 1) := by
  constructor
  · intro now mode st h
    unfold setMode
    by_cases h1 : mode ∉ validModes
    · rw [if_pos h1]
      exact ⟨rfl, rfl, rfl⟩
    · rw [if_neg h1]
      have h2 : st.audioCtxStarted = false := by
        rcases h with h | h
        · exact absurd h h1
        · exact h
      rw [if_pos h2]
      exact ⟨rfl, rfl, rfl⟩
  · intro now mode st
    unfold setMode
    split_ifs <;> rfl

/-- Witness for C10: `setMode` on the unknown name "disco" is a no-op
returning 1. -/
theorem setMode_error_atomic_witness :
    (setMode 0 "disco" stBase).1 = stBase ∧
    (setMode 0 "disco" stBase).2.1 = TrigOutput.empty ∧
    (setMode 0 "disco" stBase).2.2 = 1 :=
  setMode_error_atomic.1 0 "disco" stBase (Or.inl (by decide))

/-! ### Claim C7 -/

/-- C7: for every incoming band update (an osc-js args array), the raw value
`updateBand` stores is a finite number clamped into [0,1]; NaN and
non-finite entries are filtered out by `parseValue`, and an update with no
valid entry stores 0. -/
theorem updateBand_clamped :
    ∀ l : List JSVal,
      (∃ q : ℚ, updateBandValue (OSCArgs.arr l) = JSVal.num q ∧ 0 ≤ q ∧ q ≤ 1) ∧
      (l.filterMap jsFiniteNum = [] → updateBandValue (OSCArgs.arr l) = JSVal.num 0) := by
  intro l
  have hclamp : ∀ x : ℚ, jsClamp01 (JSVal.num x) = JSVal.num (max 0 (min 1 x)) :=
    fun x => rfl
  have hpv : parseValue (OSCArgs.arr l)
      = if (l.filterMap jsFiniteNum).length = 0 then JSVal.num 0
        else JSVal.num ((l.filterMap jsFiniteNum).sum / ((l.filterMap jsFiniteNum).length : ℚ)) :=
    rfl
  constructor
  · unfold updateBandValue
    rw [hpv]
    split_ifs <;>
      exact ⟨_, hclamp _, le_max_left _ _, max_le (by norm_num) (min_le_left _ _)⟩
  · intro h
    unfold updateBandValue
    rw [hpv, h]
    simp only [List.length_nil, if_pos]
    rw [hclamp]
    norm_num

/-! ### Claim C6 -/

/-- C6 (counterexample): with the controller in ambient mode, requesting the
melodic transition twice in immediate succession (before the 500 ms
activation timeout has fired) plays TWO transition stingers and schedules
TWO layer-activation passes, because `currentMode` is only reassigned inside
the timeout callback - so the second call passes the self-transition guard. -/
theorem double_transition_two_stingers :
    ((transitionToMode 5000 Mode.melodic stBase).2.stingers.length
        + (transitionToMode 5000 Mode.melodic
            (transitionToMode 5000 Mode.melodic stBase).1).2.stingers.length = 2) ∧
    (transitionToMode 5000 Mode.melodic
        (transitionToMode 5000 Mode.melodic stBase).1).1.pendingActivations
      = [Mode.melodic, Mode.melodic] := by
  with_unfolding_all decide

/-- C6 (amended): a transition whose target equals the current mode is a
no-op (no stinger, no state change).  But invoking the same transition twice
in immediate succession - before the 500 ms timeout that reassigns
`currentMode` has fired - plays one stinger per call and schedules one
activation pass per call: two in total, not one. -/
theorem transition_idempotence_amended :
    ∀ (st : TriggerState) (m : Mode) (now : ℤ),
      (m = st.currentMode → transitionToMode now m st = (st, TrigOutput.empty)) ∧
      (m ≠ st.currentMode →
        (transitionToMode now m st).2.stingers = [m] ∧
        (transitionToMode now m (transitionToMode now m st).1).2.stingers = [m] ∧
        (transitionToMode now m (transitionToMode now m st).1).1.pendingActivations
          = st.pendingActivations ++ [m, m]) := by
  intro st m now
  constructor
  · intro h
    unfold transitionToMode
    rw [if_pos h]
  · intro h
    simp [transitionToMode, h]

/-- Witness for the amended C6: a self-transition is a no-op, and a repeated
fresh transition stings again. -/
theorem transition_idempotence_witness :
    transitionToMode 0 Mode.ambient stBase = (stBase, TrigOutput.empty) ∧
    (transitionToMode 0 Mode.melodic stBase).2.stingers = [Mode.melodic] :=
  ⟨(transition_idempotence_amended stBase Mode.ambient 0).1 rfl,
   ((transition_idempotence_amended stBase Mode.melodic 0).2 (by decide)).1⟩

/-! ### Claim C5 -/

/-- C5 (counterexample): with the last mode change 1000 ms ago (inside the
3000 ms cooldown), a qualifying single-tick brightness spike from 0.4 to
0.85 fires nothing: `checkTriggers` returns before evaluating the mini
triggers, so no ornamental note plays.  (`currentMode` is indeed
unchanged.) -/
theorem mini_trigger_blocked_by_cooldown :
    (checkTriggers 1000 inpSpike randNone stSpike).2 = TrigOutput.empty ∧
    (checkTriggers 1000 inpSpike randNone stSpike).1.currentMode = stSpike.currentMode := by
  with_unfolding_all decide

/-- C5 (amended): mini-triggers never change `currentMode` - no branch of
`checkTriggers` reassigns it (a transition only schedules the 500 ms
timeout).  But they ARE subject to the mode-change cooldown: while
`now - lastModeChange` is within the cooldown, `checkTriggers` returns
before evaluating them and a qualifying spike fires nothing.  Once the
cooldown has elapsed and no mode trigger fires, the 0.4 → 0.85 brightness
spike plays its eight-note ascending sequence, `currentMode` unchanged. -/
theorem mini_trigger_cooldown_amended :
    (∀ (now : ℤ) (inp : Inputs) (rand : RandDraws) (st : TriggerState),
        (checkTriggers now inp rand st).1.currentMode = st.currentMode) ∧
    (∀ (now : ℤ) (inp : Inputs) (rand : RandDraws) (st : TriggerState),
        ¬ now - st.lastModeChange > triggerCooldown →
        (checkTriggers now inp rand st).2 = TrigOutput.empty) ∧
    ((checkTriggers 5000 inpSpike randNone stSpike).2.notes
        = [12, 14, 16, 19, 21, 24, 26, 24] ∧
      (checkTriggers 5000 inpSpike randNone stSpike).1.currentMode
        = stSpike.currentMode) := by
  refine ⟨?_, ?_, by with_unfolding_all decide, by with_unfolding_all decide⟩
  · intro now inp rand st
    unfold checkTriggers
    split_ifs with h1 h2
    · rfl
    · split
      · simp only [transitionToMode]
        split
        · simp [updateCounters]
        · simp [updateCounters]
      · simp [updateLasts, updateCounters]
    · simp [updateLasts, updateCounters]
  · intro now inp rand st h
    unfold checkTriggers
    by_cases h1 : st.webcamInitialized = false
    · rw [if_pos h1]
    · rw [if_neg h1, if_neg h]

/-- Witness for the amended C5: a tick 1000 ms after the last mode change
produces no output at all. -/
theorem mini_trigger_cooldown_witness :
    (checkTriggers 1000 inpSpike randNone stBase).2 = TrigOutput.empty :=
  mini_trigger_cooldown_amended.2.1 1000 inpSpike randNone stBase (by decide)

/-! ### Claim C4: helper lemmas about transition recording -/

theorem modeTarget_ne_current (inp : Inputs) (a : ℚ) (st : TriggerState) (m : Mode) :
    modeTarget inp a st = some m → m ≠ st.currentMode := by
  unfold modeTarget
  intro h
  split_ifs at h with h1 h2 h3 h4 h5
  all_goals injection h with h0
  all_goals subst h0
  · exact Ne.symm h1.2
  · exact Ne.symm h2.2
  · exact Ne.symm h3.2
  · exact Ne.symm h4.2
  · exact Ne.symm h5.2

theorem checkTriggers_stinger_spec (now : ℤ) (inp : Inputs) (rand : RandDraws)
    (st : TriggerState) :
    ((checkTriggers now inp rand st).2.stingers ≠ [] →
      now - st.lastModeChange > triggerCooldown ∧
      (checkTriggers now inp rand st).1.lastModeChange = now) ∧
    ((checkTriggers now inp rand st).2.stingers = [] →
      (checkTriggers now inp rand st).1.lastModeChange = st.lastModeChange) := by
  unfold checkTriggers
  split_ifs with h1 h2
  · exact ⟨fun h => (h rfl).elim, fun _ => rfl⟩
  · split
    next m heq =>
      have hne : m ≠ (updateCounters inp st).currentMode :=
        modeTarget_ne_current inp _ _ m heq
      constructor
      · intro _
        exact ⟨h2, by simp [transitionToMode, hne]⟩
      · intro hc
        simp [transitionToMode, hne] at hc
    next heq =>
      refine ⟨fun hc => (hc rfl).elim, fun _ => ?_⟩
      simp [updateLasts, updateCounters]
  · exact ⟨fun h => (h rfl).elim, fun _ => by simp [updateLasts, updateCounters]⟩

theorem setMode_stinger_spec (now : ℤ) (mode : String) (st : TriggerState) :
    ((setMode now mode st).2.1.stingers ≠ [] → (setMode now mode st).1.lastModeChange = now) ∧
    ((setMode now mode st).2.1.stingers = [] →
      (setMode now mode st).1.lastModeChange = st.lastModeChange) := by
  unfold setMode
  by_cases h1 : mode ∉ validModes
  · rw [if_pos h1]
    exact ⟨fun h => (h rfl).elim, fun _ => rfl⟩
  · rw [if_neg h1]
    by_cases h2 : st.audioCtxStarted = false
    · rw [if_pos h2]
      exact ⟨fun h => (h rfl).elim, fun _ => rfl⟩
    · rw [if_neg h2]
      by_cases hm : modeOfString mode = st.currentMode
      · simp [transitionToMode, hm, TrigOutput.empty]
      · simp [transitionToMode, hm]

theorem firePending_spec (st : TriggerState) :
    (firePendingActivation st).2.stingers = [] ∧
    (firePendingActivation st).1.lastModeChange = st.lastModeChange := by
  unfold firePendingActivation
  split
  · exact ⟨rfl, rfl⟩
  · exact ⟨rfl, rfl⟩

theorem stepEv_spec (st : TriggerState) (ev : Ev) :
    ((stepEv st ev).2.stingers ≠ [] →
      (stepEv st ev).1.lastModeChange = evTime ev ∧
      (evManual ev = false → evTime ev - st.lastModeChange > triggerCooldown)) ∧
    ((stepEv st ev).2.stingers = [] →
      (stepEv st ev).1.lastModeChange = st.lastModeChange) := by
  cases ev with
  | tick now inp rand =>
    obtain ⟨hA, hB⟩ := checkTriggers_stinger_spec now inp rand st
    exact ⟨fun h => ⟨(hA h).2, fun _ => (hA h).1⟩, hB⟩
  | manual now mode =>
    obtain ⟨hA, hB⟩ := setMode_stinger_spec now mode st
    exact ⟨fun h => ⟨hA h, fun hfalse => absurd hfalse (by simp [evManual])⟩, hB⟩
  | fireTimeout =>
    obtain ⟨hS, hL⟩ := firePending_spec st
    exact ⟨fun h => absurd hS h, fun _ => hL⟩

theorem runRec_gapOK : ∀ (evs : List Ev) (st : TriggerState),
    gapOK st.lastModeChange (runRec st evs) := by
  intro evs
  induction evs with
  | nil => intro st; trivial
  | cons ev evs ih =>
    intro st
    unfold runRec
    by_cases h : (stepEv st ev).2.stingers ≠ []
    · rw [if_pos h, List.singleton_append]
      have h2 := (stepEv_spec st ev).1 h
      refine ⟨fun hb => h2.2 hb, ?_⟩
      have h3 := ih (stepEv st ev).1
      rw [h2.1] at h3
      exact h3
    · rw [if_neg h, List.nil_append]
      have h0 := not_not.mp h
      have h3 := ih (stepEv st ev).1
      rw [(stepEv_spec st ev).2 h0] at h3
      exact h3

theorem gapOK_sensorGapsOK : ∀ (l : List (ℤ × Bool)) (c : ℤ), gapOK c l → sensorGapsOK l := by
  intro l
  induction l with
  | nil => intro c _; trivial
  | cons p rest ih =>
    intro c h
    obtain ⟨t, b⟩ := p
    cases rest with
    | nil => trivial
    | cons q rest2 =>
      obtain ⟨t2, b2⟩ := q
      exact ⟨fun hb => le_of_lt (h.2.1 hb.2), ih t h.2⟩

/-- C4: along any trace of sensor ticks, manual `setMode` calls and
transition-timeout firings, every pair of consecutive performed transitions
that are both sensor-driven is separated by at least `triggerCooldown`
(3000 ms): a sensor transition only fires when `now - lastModeChange`
strictly exceeds the cooldown, and every transition stamps
`lastModeChange`.  Manual transitions bypass the check and are exempt. -/
theorem mode_transition_cooldown_separation :
    ∀ (st : TriggerState) (evs : List Ev), sensorGapsOK (runRec st evs) :=
  fun st evs => gapOK_sensorGapsOK _ st.lastModeChange (runRec_gapOK evs st)

/-- Witness for C4: a concrete trace performs sensor transitions at 4000 ms
and 9000 ms - 5000 ms ≥ 3000 ms apart - and satisfies the separation
property. -/
theorem mode_transition_cooldown_witness :
    runRec stBase evsTwoTransitions = [(4000, false), (9000, false)] ∧
    sensorGapsOK (runRec stBase evsTwoTransitions) :=
  ⟨by with_unfolding_all decide, mode_transition_cooldown_separation stBase evsTwoTransitions⟩

/-- Witness for C7: an update whose entries are all invalid (NaN and
Infinity) stores 0. -/
theorem updateBand_clamped_witness :
    updateBandValue (OSCArgs.arr [JSVal.nan, JSVal.inf]) = JSVal.num 0 :=
  (updateBand_clamped [JSVal.nan, JSVal.inf]).2 (by decide)
